import Mathlib

/-!
Shallow embedding of the `inner` crate (src/src/lib.rs): the `IntoResult`
conversion trait with its two built-in impls, and the six expansion arms of
the `inner!` macro, modelled as functions over an explicit control-flow
outcome type so that panics and non-local control transfer (early `return`
inside an `else` block) are observable values.
-/

/-- Rust `Result<T, E>`: exactly one of a success payload or a failure
payload. -/
inductive RResult (T : Type u) (E : Type v) where
  | ok : T → RResult T E
  | err : E → RResult T E
  deriving DecidableEq, Repr

/-- The `IntoResult<T, E>` trait (lib.rs lines 139-141): one operation
converting a value into a `Result`. -/
class IntoResult (V : Type w) (T : Type u) (E : Type v) where
  into_result : V → RResult T E

/-- `impl IntoResult for Result` (lib.rs lines 151-154): returns `self`. -/
instance : IntoResult (RResult T E) T E where
  into_result r := r

/-- Rust `Option::ok_or`: `Some(v).ok_or(e) = Ok(v)`, `None.ok_or(e) = Err(e)`. -/
def okOr (o : Option T) (e : E) : RResult T E :=
  match o with
  | some v => RResult.ok v
  | none => RResult.err e

/-- `impl IntoResult for Option` (lib.rs lines 156-159): `self.ok_or(())`. -/
instance : IntoResult (Option T) T Unit where
  into_result o := okOr o ()

/-- Outcome of evaluating an expansion of the macro (or a user block) inside
an enclosing function returning `R`: a normal value, an early `return` from
the enclosing function, or a panic carrying its message. -/
inductive Ctl (R : Type u) (T : Type v) where
  | val : T → Ctl R T
  | ret : R → Ctl R T
  | panicked : String → Ctl R T
  deriving DecidableEq, Repr

/-- Rust statement sequencing around a `Ctl` outcome: subsequent code runs
only when the previous expression produced a normal value; `return` and
panic propagate past it. -/
def Ctl.seq : Ctl R T → (T → Ctl R U) → Ctl R U
  | Ctl.val t, k => k t
  | Ctl.ret r, _ => Ctl.ret r
  | Ctl.panicked m, _ => Ctl.panicked m

/-- The panic message built by arms E and F (lib.rs lines 206 and 216):
the format string applied to `stringify!($x)`, the literal source text of
the argument expression. -/
def panicMsg (xtext : String) : String :=
  "Unexpected value found inside \x27" ++ xtext ++ "\x27"

/-- Arm A (lib.rs lines 164-171), `inner!(x, if Variant, else |e| b)`:
`match x { Variant(q) => q, e @ _ => b }`. The pattern `Variant(q)` for a
chosen variant path is modelled by the matcher `m`; the `e @ _` arm binds
the entire unmatched value. -/
def innerIfElseCapture (m : V → Option F) (x : V) (b : V → Ctl R F) : Ctl R F :=
  match m x with
  | some q => Ctl.val q
  | none => b x

/-- Arm B (lib.rs lines 173-180), `inner!(x, if Variant, else b)`:
`match x { Variant(q) => q, _ => b }`. -/
def innerIfElse (m : V → Option F) (x : V) (b : Ctl R F) : Ctl R F :=
  match m x with
  | some q => Ctl.val q
  | none => b

/-- Arm C (lib.rs lines 182-190), `inner!(x, else |e| b)`:
`match x.into_result() { Ok(q) => q, Err(e) => b }`. -/
def innerElseCapture [IntoResult V T E] (x : V) (b : E → Ctl R T) : Ctl R T :=
  match IntoResult.into_result x with
  | RResult.ok q => Ctl.val q
  | RResult.err e => b e

/-- Arm D (lib.rs lines 192-200), `inner!(x, else b)`:
`match x.into_result() { Ok(q) => q, _ => b }`. -/
def innerElse [IntoResult V T E] (x : V) (b : Ctl R T) : Ctl R T :=
  match @IntoResult.into_result V T E _ x with
  | RResult.ok q => Ctl.val q
  | RResult.err _ => b

/-- Arm E (lib.rs lines 202-209), `inner!(x, if Variant)`:
`match x { Variant(q) => q, _ => panic }`, the message naming the literal
source text of `x`. -/
def innerIf (m : V → Option F) (x : V) (xtext : String) : Ctl R F :=
  match m x with
  | some q => Ctl.val q
  | none => Ctl.panicked (panicMsg xtext)

/-- Arm F (lib.rs lines 211-219), `inner!(x)`:
`match x.into_result() { Ok(q) => q, _ => panic }`. -/
def innerPlain [IntoResult V T E] (x : V) (xtext : String) : Ctl R T :=
  match @IntoResult.into_result V T E _ x with
  | RResult.ok q => Ctl.val q
  | RResult.err _ => Ctl.panicked (panicMsg xtext)

/-- The two-variant test enum (lib.rs tests, lines 252-259 and 274-298). -/
inductive Fruit where
  | apple : Int → Fruit
  | orange : Int → Fruit
  deriving DecidableEq, Repr

/-- The pattern `Fruit::Apple(q)` as a matcher. -/
def appleMatch (z : Fruit) : Option Int :=
  match z with
  | Fruit.apple q => some q
  | _ => none

/-- The pattern `Fruit::Orange(q)` as a matcher. -/
def orangeMatch (z : Fruit) : Option Int :=
  match z with
  | Fruit.orange q => some q
  | _ => none

/-- The test `else_clause` (lib.rs lines 234-239): with
`x : Result<String, i32>`, evaluate `let _ = inner!(x, else { return });`
then an unconditional panic. -/
def else_clause (x : RResult String Int) : Ctl Unit Unit :=
  Ctl.seq (@innerElse (RResult String Int) String Int Unit _ x (Ctl.ret ()))
    (fun _ => Ctl.panicked "explicit panic")

/-- Token categories of an `inner!` invocation at the granularity the
macro arms distinguish: the expression, commas, the keywords `if` and
`else`, a path fragment, a capture clause, and a block fragment. -/
inductive Tok where
  | exprTok
  | commaTok
  | ifTok
  | pathTok
  | elseTok
  | captureTok
  | blockTok
  deriving DecidableEq, Repr

/-- The six macro arms, named after the spec shapes. -/
inductive Shape where
  | A
  | B
  | C
  | D
  | E
  | F
  deriving DecidableEq, Repr, Fintype

/-- The token pattern of each arm of `inner!` (lib.rs lines 164, 173, 182,
192, 202, 211). -/
def armPat : Shape → List Tok
  | Shape.A => [Tok.exprTok, Tok.commaTok, Tok.ifTok, Tok.pathTok,
                Tok.commaTok, Tok.elseTok, Tok.captureTok, Tok.blockTok]
  | Shape.B => [Tok.exprTok, Tok.commaTok, Tok.ifTok, Tok.pathTok,
                Tok.commaTok, Tok.elseTok, Tok.blockTok]
  | Shape.C => [Tok.exprTok, Tok.commaTok, Tok.elseTok, Tok.captureTok,
                Tok.blockTok]
  | Shape.D => [Tok.exprTok, Tok.commaTok, Tok.elseTok, Tok.blockTok]
  | Shape.E => [Tok.exprTok, Tok.commaTok, Tok.ifTok, Tok.pathTok]
  | Shape.F => [Tok.exprTok]

/-- The arms in the order they appear in the macro definition
(lib.rs lines 163-220). -/
def armOrder : List Shape :=
  [Shape.A, Shape.B, Shape.C, Shape.D, Shape.E, Shape.F]

/-- A `macro_rules` arm matches an invocation only when its pattern
consumes the whole token stream. -/
def armMatches (s : Shape) (t : List Tok) : Bool :=
  decide (armPat s = t)

/-- `macro_rules` dispatch: the first arm, in source order, whose pattern
matches the whole invocation. -/
def selectShape (t : List Tok) : Option Shape :=
  armOrder.find? (fun s => armMatches s t)

/-- C1: for every success result `Ok(v)` and every present optional value
`Some(v)`, the no-clause form `inner!(x)` yields exactly the contained
payload `v`; in particular `inner!(Ok(2))` yields `2`. -/
theorem no_clause_yields_payload :
    (∀ (T E R : Type) (v : T) (s : String),
      @innerPlain (RResult T E) T E R _ (RResult.ok v) s = Ctl.val v)
    ∧ (∀ (T R : Type) (v : T) (s : String),
      @innerPlain (Option T) T Unit R _ (some v) s = Ctl.val v)
    ∧ @innerPlain (RResult Int Unit) Int Unit Unit _ (RResult.ok 2) "y"
        = Ctl.val 2 :=
  ⟨fun _ _ _ _ _ => rfl, fun _ _ _ _ => rfl, rfl⟩

/-- C2: the no-clause form panics on `None` and on any `Err(e)`; the panic
message is determined solely by the literal source text of the argument
expression (the same for every failure payload `e`) and embeds that text
verbatim. -/
theorem no_clause_absent_panics :
    (∀ (T R : Type) (s : String),
      @innerPlain (Option T) T Unit R _ none s = Ctl.panicked (panicMsg s))
    ∧ (∀ (T E R : Type) (e : E) (s : String),
      @innerPlain (RResult T E) T E R _ (RResult.err e) s
        = Ctl.panicked (panicMsg s))
    ∧ ∀ s, panicMsg s = "Unexpected value found inside \x27" ++ s ++ "\x27" :=
  ⟨fun _ _ _ => rfl, fun _ _ _ _ _ => rfl, fun _ => rfl⟩

/-- C3: `into_result` on a two-outcome result is the identity: it returns
the input unchanged, same variant and same payload. -/
theorem into_result_identity :
    ∀ (T E : Type) (r : RResult T E),
      (IntoResult.into_result r : RResult T E) = r :=
  fun _ _ _ => rfl

/-- C4: `into_result` on an optional value maps `Some(v)` to `Ok(v)` with
the payload unchanged, and `None` to `Err(())`. -/
theorem option_into_result :
    (∀ (T : Type) (v : T),
      (IntoResult.into_result (some v) : RResult T Unit) = RResult.ok v)
    ∧ (∀ (T : Type),
      (IntoResult.into_result (none : Option T) : RResult T Unit)
        = RResult.err ()) :=
  ⟨fun _ _ => rfl, fun _ => rfl⟩

/-- C5: on a failure value `Err(e)` the capture form `inner!(x, else |e| b)`
evaluates the block with the name bound to that exact failure payload and
returns the block's value; concretely, `Err(7)` with block
`(e + 2).to_string()` yields the string "9". -/
theorem else_capture_binds_failure :
    (∀ (T E R : Type) (e : E) (b : E → Ctl R T),
      @innerElseCapture (RResult T E) T E R _ (RResult.err e) b = b e)
    ∧ @innerElseCapture (RResult String Int) String Int Unit _
        (RResult.err 7) (fun e => Ctl.val (toString (e + 2)))
        = Ctl.val "9" :=
  ⟨fun _ _ _ _ _ => rfl, rfl⟩

/-- C6: for a value built by a constructor whose pattern the `if Variant`
clause matches, shape A yields exactly that payload; for a value the
pattern does not match, the `else` block receives the entire original
value, not a sub-field of it. -/
theorem if_variant_shape_law :
    ∀ (V F R : Type) (m : V → Option F),
      (∀ (mk : F → V) (p : F) (b : V → Ctl R F),
        m (mk p) = some p → innerIfElseCapture m (mk p) b = Ctl.val p)
      ∧ (∀ (x : V) (b : V → Ctl R F),
        m x = none → innerIfElseCapture m x b = b x) :=
  fun _ _ _ _ =>
    ⟨fun _ _ _ h => by unfold innerIfElseCapture; rw [h],
     fun _ _ h => by unfold innerIfElseCapture; rw [h]⟩

/-- C6 witness: with the test enum, `inner!(Apple(3), if Fruit::Apple, else
|e| ...)` yields 3, and on `Orange(15)` the block observes the whole value
`Orange(15)`. -/
theorem if_variant_shape_law_witness :
    appleMatch (Fruit.apple 3) = some 3
    ∧ innerIfElseCapture appleMatch (Fruit.apple 3)
        (fun z => Ctl.val (if z = Fruit.orange 15 then (1 : Int) else 0))
        = (Ctl.val 3 : Ctl Unit Int)
    ∧ appleMatch (Fruit.orange 15) = none
    ∧ innerIfElseCapture appleMatch (Fruit.orange 15)
        (fun z => Ctl.val (if z = Fruit.orange 15 then (1 : Int) else 0))
        = (Ctl.val 1 : Ctl Unit Int) :=
  ⟨rfl,
   (if_variant_shape_law Fruit Int Unit appleMatch).1 Fruit.apple 3
     (fun z => Ctl.val (if z = Fruit.orange 15 then (1 : Int) else 0)) rfl,
   rfl,
   ((if_variant_shape_law Fruit Int Unit appleMatch).2 (Fruit.orange 15)
     (fun z => Ctl.val (if z = Fruit.orange 15 then (1 : Int) else 0))
     rfl).trans (by decide)⟩

/-- C7: shape E, `inner!(x, if Variant)`: on a matching value it yields the
single field; on a non-matching value it panics with the message naming the
literal source text of `x` (independent of the runtime value). -/
theorem if_no_else_panics :
    ∀ (V F R : Type) (m : V → Option F) (x : V) (s : String),
      (∀ q, m x = some q → (innerIf m x s : Ctl R F) = Ctl.val q)
      ∧ (m x = none →
        (innerIf m x s : Ctl R F)
          = Ctl.panicked ("Unexpected value found inside \x27" ++ s ++ "\x27")) :=
  fun _ _ _ _ _ _ =>
    ⟨fun _ h => by unfold innerIf; rw [h],
     fun h => by unfold innerIf; rw [h]; rfl⟩

/-- C7 witness: `inner!(Apple(15), if Fruit::Apple)` yields 15, while
`inner!(z, if Fruit::Apple)` on `Orange(1)` panics naming the text `z`. -/
theorem if_no_else_panics_witness :
    appleMatch (Fruit.apple 15) = some 15
    ∧ (innerIf appleMatch (Fruit.apple 15) "z" : Ctl Unit Int) = Ctl.val 15
    ∧ appleMatch (Fruit.orange 1) = none
    ∧ (innerIf appleMatch (Fruit.orange 1) "z" : Ctl Unit Int)
        = Ctl.panicked "Unexpected value found inside \x27z\x27" :=
  ⟨rfl,
   (if_no_else_panics Fruit Int Unit appleMatch (Fruit.apple 15) "z").1 15 rfl,
   rfl,
   ((if_no_else_panics Fruit Int Unit appleMatch (Fruit.orange 1) "z").2
     rfl).trans rfl⟩

/-- C8: the `else` block is expanded inline, not as a closure: a `return`
written in the block becomes the outcome of the whole expansion, statement
sequencing propagates it past all subsequent statements, and in the
modelled `else_clause` test the trailing panic is never reached. -/
theorem else_block_nonlocal_control :
    (∀ (T E R : Type) (e : E) (r : R),
      @innerElse (RResult T E) T E R _ (RResult.err e) (Ctl.ret r) = Ctl.ret r)
    ∧ (∀ (T U R : Type) (r : R) (k : T → Ctl R U),
      Ctl.seq (Ctl.ret r) k = Ctl.ret r)
    ∧ else_clause (RResult.err 7) = Ctl.ret () :=
  ⟨fun _ _ _ _ _ => rfl, fun _ _ _ _ _ => rfl, rfl⟩

/-- The six arm patterns are pairwise distinct, so at most one arm can
match a given whole invocation. -/
theorem armPat_injective : ∀ s s1 : Shape, armPat s1 = armPat s → s1 = s := by
  decide

/-- C9: the macro arms appear in the fixed order A, B, C, D, E, F; shape
E's pattern is a strict front segment of shape A's; dispatch selects each
shape on its own canonical invocation; and an invocation whose tokens fit
some shape is only ever expanded under that shape, never a later one. -/
theorem shape_priority :
    armOrder = [Shape.A, Shape.B, Shape.C, Shape.D, Shape.E, Shape.F]
    ∧ armPat Shape.A = armPat Shape.E
        ++ [Tok.commaTok, Tok.elseTok, Tok.captureTok, Tok.blockTok]
    ∧ (∀ s, selectShape (armPat s) = some s)
    ∧ (∀ (t : List Tok) (s s1 : Shape),
        armMatches s t = true → selectShape t = some s1 → s1 = s) :=
  ⟨rfl, by decide, by decide,
   fun t s s1 hs h1 => by
    have hpat : armPat s = t := of_decide_eq_true hs
    have h2 := List.find?_some h1
    have hpat1 : armPat s1 = t := of_decide_eq_true h2
    exact armPat_injective s s1 (hpat1.trans hpat.symm)⟩

/-- C9 witness: the canonical shape-A invocation matches arm A and dispatch
expands it under shape A. -/
theorem shape_priority_witness :
    armMatches Shape.A (armPat Shape.A) = true
    ∧ selectShape (armPat Shape.A) = some Shape.A
    ∧ Shape.A = Shape.A :=
  ⟨by decide, by decide,
   shape_priority.2.2.2 (armPat Shape.A) Shape.A Shape.A (by decide) (by decide)⟩

/-- C10: when conversion yields `Ok(v)`, both `else` forms return `v` and
the fallback block is never consulted: the result is the same for every
block, and no control transfer written in the block is taken. -/
theorem success_skips_else_block :
    ∀ (V T E R : Type) (inst : IntoResult V T E) (x : V) (v : T),
      @IntoResult.into_result V T E inst x = RResult.ok v →
      (∀ b : E → Ctl R T, @innerElseCapture V T E R inst x b = Ctl.val v)
      ∧ (∀ blk : Ctl R T, @innerElse V T E R inst x blk = Ctl.val v) :=
  fun V T E R inst x v h =>
    ⟨fun _ => by unfold innerElseCapture; rw [h],
     fun _ => by unfold innerElse; rw [h]⟩

/-- C10 witness: `Ok(5)` with a block that would return early still yields
the value 5 under both else forms. -/
theorem success_skips_else_block_witness :
    (IntoResult.into_result (RResult.ok (5 : Int) : RResult Int Unit)
      : RResult Int Unit) = RResult.ok 5
    ∧ @innerElseCapture (RResult Int Unit) Int Unit Unit _ (RResult.ok 5)
        (fun _ => Ctl.ret ()) = Ctl.val 5
    ∧ @innerElse (RResult Int Unit) Int Unit Unit _ (RResult.ok 5)
        (Ctl.ret ()) = Ctl.val 5 :=
  ⟨rfl,
   (success_skips_else_block (RResult Int Unit) Int Unit Unit _
     (RResult.ok 5) 5 rfl).1 (fun _ => Ctl.ret ()),
   (success_skips_else_block (RResult Int Unit) Int Unit Unit _
     (RResult.ok 5) 5 rfl).2 (Ctl.ret ())⟩
